import Mathlib

/-!
Verification of the Credify-WeHelp decision intelligence pipeline.

This file gives a shallow embedding, in Lean, of the core decision modules of
the repository (src/core/fraud_detector.py, src/core/decision_engine.py,
src/core/lime_explainer.py, src/core/borderline_advisor.py,
src/core/knowledge_base.py, src/core/improvement_suggester.py,
src/core/interview_questioner.py) and proves or refutes the stated properties
of the specification against it.

Modelling conventions:
 - Python floats are modelled as exact rationals (ℚ); float literals of the
   source become the same decimal literals in ℚ.
 - Python `round(x, n)` uses round-half-to-even; it is modelled exactly by
   `pyRound` below on rationals.
 - A raw application-feature mapping is an association list from field name
   to `Val`; `Val.none` stands for a Python value on which `int()`/`float()`
   raise (e.g. `None` or a non-numeric string). Functions that may raise are
   embedded in the `Except String` monad.
 - The external classifier and explainer are opaque collaborators: the
   classifier is a parameter giving the approve probability (or the PD as a
   function of features for the counterfactual suggester), the explainer's
   output is a parameter of type `Except String (List (String × ℚ))`, the
   error case standing for an explainer that fails or is unavailable.
 - Python's stable `list.sort` is modelled by `List.insertionSort`, which is
   a stable sort, with the corresponding (non-strict) order relation.
-/

namespace Credify

/-- A Python value stored in the raw feature mapping: a numeric value
(int or float, both exact rationals here), or a value on which the numeric
coercions `int()` / `float()` raise, such as `None`. -/
inductive Val where
  | num (q : ℚ)
  | none
deriving DecidableEq

/-- A raw application-feature mapping (Python dict with string keys). -/
abbrev RawMap := List (String × Val)

/-- Python `raw.get(k, d)`. -/
def rawGetD (raw : RawMap) (k : String) (d : Val) : Val :=
  (List.lookup k raw).getD d

/-- Truncation toward zero, Python `int()` applied to a float. -/
def pyTrunc (q : ℚ) : ℤ :=
  if q < 0 then ⌈q⌉ else ⌊q⌋

/-- Python `int(x)` on a raw value: truncates a number, raises otherwise. -/
def pyInt : Val → Except String ℤ
  | .num q => .ok (pyTrunc q)
  | .none => .error "TypeError: int() argument is not a number"

/-- Python `float(x)` on a raw value: passes a number through, raises
otherwise. -/
def pyFloat : Val → Except String ℚ
  | .num q => .ok q
  | .none => .error "TypeError: float() argument is not a number"

/-- Round half to even to an integer (Python banker's rounding). -/
def rhe (x : ℚ) : ℤ :=
  let f := ⌊x⌋
  let frac := x - f
  if frac < 1/2 then f
  else if 1/2 < frac then f + 1
  else if 2 ∣ f then f else f + 1

/-- Python `round(x, n)` on exact rationals (round half to even at the n-th
decimal place). -/
def pyRound (n : ℕ) (x : ℚ) : ℚ :=
  (rhe (x * 10 ^ n) : ℚ) / 10 ^ n

/-- Fixed-point decimal rendering of a rational with `n` decimals, modelling
Python's format specifier `:.nf` (which rounds half to even). -/
def fmtFixed (n : ℕ) (q : ℚ) : String :=
  let r := rhe (q * 10 ^ n)
  let m := r.natAbs
  let ip := m / 10 ^ n
  let fp := m % 10 ^ n
  let fpStr := toString fp
  let fpPad := String.mk (List.replicate (n - fpStr.length) '0') ++ fpStr
  (if r < 0 then "-" else "") ++ toString ip ++ (if n = 0 then "" else "." ++ fpPad)

/-- Whether `pat` is a prefix of `l` (on character lists). -/
def startsWithChars : List Char → List Char → Bool
  | [], _ => true
  | _ :: _, [] => false
  | a :: as, b :: bs => a == b && startsWithChars as bs

/-- Whether `pat` occurs as a contiguous substring of `l`; Python's
`pat in s` on strings. -/
def containsChars (pat : List Char) : List Char → Bool
  | [] => startsWithChars pat []
  | c :: rest => startsWithChars pat (c :: rest) || containsChars pat rest

/-- Python `sub in s` for strings. -/
def strContains (s sub : String) : Bool :=
  containsChars sub.data s.data

/-- Python `sep.join(parts)`. -/
def joinSep (sep : String) : List String → String
  | [] => ""
  | [a] => a
  | a :: b :: rest => a ++ sep ++ joinSep sep (b :: rest)

/-! ## src/core/fraud_detector.py -/

/-- A fraud flag as built by `fraud_check`: `{"name": ..., "severity": ...}`
with the severity one of the strings "hard" and "soft". -/
structure Flag where
  name : String
  severity : String
deriving DecidableEq

/-- The result dictionary of `fraud_check`. -/
structure FraudResult where
  decision : String
  fraud_score : ℚ
  flags : List Flag
deriving DecidableEq

/-- One rule application of `fraud_check`: when the rule's condition matched,
append its flag to the flag list and add its weight to the running score
(an `if` block of the source). -/
def addFlag (cond : Bool) (f : Flag) (w : ℚ) (st : List Flag × ℚ) :
    List Flag × ℚ :=
  if cond then (st.1 ++ [f], st.2 + w) else st

/-- The soft financial-inconsistency rule's condition: both fields present,
both convertible to float (a conversion failure is swallowed by the
`try`/`except` of the source and yields no flag), income positive and
expenses greater than income. -/
def expensesGtIncomeCond (raw : RawMap) : Bool :=
  match List.lookup "monthly_income" raw, List.lookup "fixed_monthly_expenses" raw with
  | some i, some e =>
    match pyFloat i, pyFloat e with
    | .ok income, .ok expenses => decide (0 < income) && decide (income < expenses)
    | _, _ => false
  | _, _ => false

/-- Embedding of `fraud_check` (src/core/fraud_detector.py, lines 7-87):
the ordered hard and soft rules, each evaluated on a leniently-read field,
accumulating flags and score, the coercions `int()`/`float()` raising in the
`Except` monad exactly where the source applies them. -/
def fraud_check (raw : RawMap) : Except String FraudResult :=
  (pyInt (rawGetD raw "is_fraud" (.num 0))).bind fun is_fraud =>
  let st1 := addFlag (is_fraud == 1) ⟨"explicit_fraud_label", "hard"⟩ 0.60 ([], 0)
  (pyInt (rawGetD raw "document_mismatch_flag" (.num 0))).bind fun document_mismatch_flag =>
  let st2 := addFlag (document_mismatch_flag == 1) ⟨"document_mismatch", "hard"⟩ 0.35 st1
  (pyFloat (rawGetD raw "metadata_anomaly_score" (.num 0.0))).bind fun metadata_anomaly_score =>
  let st3 := addFlag (decide (0.80 ≤ metadata_anomaly_score)) ⟨"metadata_anomaly_high", "hard"⟩ 0.35 st2
  (pyFloat (rawGetD raw "income_inflation_ratio" (.num 1.0))).bind fun infl_hard =>
  let st4 := addFlag (decide (2.50 ≤ infl_hard)) ⟨"income_inflation_extreme", "hard"⟩ 0.35 st3
  (pyInt (rawGetD raw "geo_location_mismatch" (.num 0))).bind fun geo_location_mismatch =>
  let st5 := addFlag (geo_location_mismatch == 1) ⟨"geo_location_mismatch", "soft"⟩ 0.15 st4
  let st6 := addFlag (expensesGtIncomeCond raw) ⟨"expenses_gt_income", "soft"⟩ 0.15 st5
  (pyInt (rawGetD raw "application_velocity" (.num 0))).bind fun application_velocity =>
  let st7 := addFlag (decide (3 ≤ application_velocity)) ⟨"rapid_multiple_applications", "soft"⟩ 0.15 st6
  (pyInt (rawGetD raw "missed_payments_12m" (.num 0))).bind fun missed_payments_12m =>
  let st8 := addFlag (decide (3 ≤ missed_payments_12m)) ⟨"many_missed_payments_12m", "soft"⟩ 0.12 st7
  (pyFloat (rawGetD raw "utility_bill_on_time_ratio" (.num 1.0))).bind fun utility_bill_on_time_ratio =>
  let st9 := addFlag (decide (utility_bill_on_time_ratio < 0.30)) ⟨"low_utility_on_time_ratio", "soft"⟩ 0.12 st8
  (pyFloat (rawGetD raw "income_inflation_ratio" (.num 1.0))).bind fun infl =>
  let st10 := addFlag (decide (1.50 ≤ infl) && decide (infl < 2.50)) ⟨"income_inflation_moderate", "soft"⟩ 0.12 st9
  let score := min st10.2 1
  .ok { decision := if st10.1.any (fun f => f.severity == "hard") then "BLOCK" else "PASS"
        fraud_score := pyRound 3 score
        flags := st10.1 }

/-- The weight each fraud rule of `fraud_check` adds to the score, keyed by
the name of the flag the rule appends. -/
def flagWeight : String → ℚ
  | "explicit_fraud_label" => 0.60
  | "document_mismatch" => 0.35
  | "metadata_anomaly_high" => 0.35
  | "income_inflation_extreme" => 0.35
  | "geo_location_mismatch" => 0.15
  | "expenses_gt_income" => 0.15
  | "rapid_multiple_applications" => 0.15
  | "many_missed_payments_12m" => 0.12
  | "low_utility_on_time_ratio" => 0.12
  | "income_inflation_moderate" => 0.12
  | _ => 0

/-- The sum of the rule weights of a list of matched flags. -/
def sumWeights (flags : List Flag) : ℚ :=
  (flags.map (fun f => flagWeight f.name)).sum

/-- A raw mapping all of whose stored values are numeric. -/
def NumericMap (raw : RawMap) : Prop :=
  ∀ p ∈ raw, ∃ q : ℚ, (p : String × Val).2 = Val.num q

/-- Invariant of the accumulating state of `fraud_check`: the running score
is the sum of the weights of the accumulated flags, and is an integer
multiple of 1/100. -/
def stepOk (st : List Flag × ℚ) : Prop :=
  st.2 = sumWeights st.1 ∧ ∃ m : ℤ, st.2 * 100 = m

/-! ## src/core/decision_engine.py -/

/-- Approval probability threshold (decision_engine.py line 16). -/
def APPROVE_TH : ℚ := 0.70

/-- Rejection probability threshold (decision_engine.py line 17). -/
def REJECT_TH : ℚ := 0.40

/-- Embedding of `risk_band_from_pd` (decision_engine.py, lines 20-35). -/
def risk_band_from_pd (p_approve : ℚ) : String :=
  if APPROVE_TH ≤ p_approve then "APPROVED"
  else if p_approve ≤ REJECT_TH then "REJECTED"
  else "MIDDLE"

/-- A LIME feature entry of the decision engine:
`{"feature": ..., "weight": ...}`. -/
structure LimeFeat where
  feature : String
  weight : ℚ
deriving DecidableEq

/-- Rendering of a rational in an f-string, abstracting Python's float repr
(the exact digit string differs from Lean's; no claim depends on it). -/
def pyFloatRepr (q : ℚ) : String := toString q

/-- Python `feat.split(":")[0]`: the part of the string before the first
colon. -/
def beforeColon (s : String) : String :=
  String.mk (s.data.takeWhile (fun c => c ≠ ':'))

/-- Embedding of `build_summary` (decision_engine.py, lines 60-94). -/
def build_summary (decision : String) (pd_percent : ℚ) (fraud_result : FraudResult)
    (lime_features : List LimeFeat) : String :=
  if decision == "BLOCKED_FRAUD" then
    let flags := fraud_result.flags
    let flag_names := if flags.isEmpty then "inconsistency"
      else joinSep ", " (flags.map (fun f => f.name))
    "Blocked due to fraud signal: " ++ flag_names ++ ". Manual verification required."
  else
    let top := lime_features.take 3
    let cleaned := top.map (fun t =>
      ((beforeColon t.feature).replace "num__" "").replace "cat__" "")
    let reasons := if cleaned.isEmpty then "key risk factors" else joinSep ", " cleaned
    let pdStr := pyFloatRepr pd_percent
    if decision == "APPROVED" then
      "Approved with low estimated risk (PD " ++ pdStr ++ "%). Key factors: " ++ reasons ++ "."
    else if decision == "REJECTED" then
      "Rejected due to high estimated risk (PD " ++ pdStr ++ "%). Main drivers: " ++ reasons ++ "."
    else
      "Manual review required (PD " ++ pdStr ++ "%). Key signals: " ++ reasons ++ "."

/-- Embedding of `build_feature_snapshot` (decision_engine.py, lines 38-57):
keeps the listed features that are present in the raw mapping. -/
def build_feature_snapshot (raw : RawMap) (snapshot_features : List String) : RawMap :=
  snapshot_features.filterMap (fun f => (List.lookup f raw).map (fun v => (f, v)))

/-- The default snapshot feature list (decision_engine.py, lines 118-128). -/
def defaultSnapshotFeatures : List String :=
  ["monthly_income", "fixed_monthly_expenses", "debt_to_income_ratio",
   "employment_years", "employment_type", "loan_amount",
   "loan_duration_months", "utility_bill_on_time_ratio"]

/-- The analysis dictionary returned by `analyze_application_complete`. -/
structure Analysis where
  decision : String
  risk_band : String
  pd_score : ℚ
  pd_percent : ℚ
  approve_probability_percent : ℚ
  thresholds : ℚ × ℚ
  fraud : FraudResult
  fraud_decision : String
  fraud_score : ℚ
  lime_features : List LimeFeat
  feature_snapshot : RawMap
  summary : String
  input_data : RawMap

/-- Embedding of `analyze_application_complete` (decision_engine.py, lines
97-200). The trained classifier is an external collaborator: `p_approve` is
the approve-class probability its `predict_proba` call yields for `raw`.
The explainer is likewise external: `explainerOut` is its raw
(feature descriptor, weight) list, with `.error` standing for an explainer
that is unavailable or whose call raises — the source's `try`/`except`
degrades that case to an empty list. `fraud_check`'s exceptions propagate
(the source does not guard the fraud call). -/
def analyze_application_complete (raw : RawMap) (p_approve : ℚ)
    (explainerOut : Except String (List (String × ℚ))) : Except String Analysis :=
  let pd_score := 1 - p_approve
  let band := risk_band_from_pd p_approve
  (fraud_check raw).bind fun fraud_result =>
  let lime_features := match explainerOut with
    | .ok l => l.map (fun fw => { feature := fw.1, weight := fw.2 })
    | .error _ => []
  let final_decision := if fraud_result.decision == "BLOCK" then "BLOCKED_FRAUD" else band
  let pd_percent := pyRound 2 (pd_score * 100)
  let summary := build_summary final_decision pd_percent fraud_result lime_features
  .ok { decision := final_decision
        risk_band := band
        pd_score := pd_score
        pd_percent := pd_percent
        approve_probability_percent := pyRound 2 (p_approve * 100)
        thresholds := (APPROVE_TH, REJECT_TH)
        fraud := fraud_result
        fraud_decision := fraud_result.decision
        fraud_score := fraud_result.fraud_score
        lime_features := lime_features
        feature_snapshot := build_feature_snapshot raw defaultSnapshotFeatures
        summary := summary
        input_data := raw }

/-! ## src/core/lime_explainer.py -/

/-- A normalized feature attribution
`{"feature": ..., "contribution": ..., "description": ...}`. -/
structure Attribution where
  feature : String
  contribution : ℚ
  description : String
deriving DecidableEq

/-- Python `feature_desc.split()[0] if ' ' in feature_desc else feature_desc`:
the first whitespace-delimited token when the descriptor holds a space,
otherwise the descriptor itself. -/
def firstToken (s : String) : String :=
  if s.data.contains ' ' then
    String.mk ((s.data.dropWhile Char.isWhitespace).takeWhile (fun c => ¬ c.isWhitespace))
  else s

/-- Sorting relation of the explanation adapter: descending by absolute
contribution (non-strict; the source's stable `sort` with
`key=abs(contribution), reverse=True`). -/
abbrev attrGE (a b : Attribution) : Prop := |b.contribution| ≤ |a.contribution|

instance : IsTotal Attribution attrGE := ⟨fun _ _ => le_total _ _⟩

instance : IsTrans Attribution attrGE := ⟨fun _ _ _ h1 h2 => le_trans h2 h1⟩

namespace LoanLimeExplainer

/-- Embedding of `LoanLimeExplainer.explain` (lime_explainer.py, lines
40-84) downstream of the explainer call: `explanation_list` is the
`exp.as_list()` output of the external LIME explainer; each descriptor is
reduced to a bare feature name and the records are sorted (stably) by
descending absolute contribution. -/
def explain (explanation_list : List (String × ℚ)) : List Attribution :=
  let lime_features := explanation_list.map (fun fd =>
    { feature := firstToken fd.1, contribution := fd.2, description := fd.1 })
  List.insertionSort attrGE lime_features

end LoanLimeExplainer

/-! ## src/core/knowledge_base.py -/

/-- One entry of the static `FEATURE_KNOWLEDGE` table. -/
structure KnowledgeEntry where
  question : String
  follow_up : String
  documents : List String
  actions : List String
  explanation : String

/-- Embedding of the static `FEATURE_KNOWLEDGE` table
(knowledge_base.py, lines 3-163), in source order. -/
def FEATURE_KNOWLEDGE : List (String × KnowledgeEntry) :=
  [("age",
    { question := "You're quite young for this loan amount. Do you have family support or additional assets?"
      follow_up := "Can you provide proof of additional financial support?"
      documents := ["Parent/guardian letter of support", "Asset documentation"]
      actions := ["Add co-signer", "Provide proof of assets", "Reduce loan amount"]
      explanation := "age is lower than typical approved applicants" }),
   ("education_level",
    { question := "Your education level may affect income stability. Do you have specialized training or certifications?"
      follow_up := "Can you provide certificates or proof of specialized skills?"
      documents := ["Education certificates", "Professional certifications", "Training records"]
      actions := ["Provide proof of additional qualifications", "Show stable employment despite education level"]
      explanation := "education level is below preferred range" }),
   ("employment_type",
    { question := "Your employment type shows some instability risk. Can you provide more details about job security?"
      follow_up := "Do you have an employment contract or letter from employer?"
      documents := ["Employment contract", "Employer verification letter", "Pay stubs"]
      actions := ["Provide employment contract", "Add employed co-applicant", "Show consistent work history"]
      explanation := "employment type carries higher risk" }),
   ("employment_years",
    { question := "You've been in your current job for a short time. Have you had consistent employment before?"
      follow_up := "Can you provide proof of previous stable employment?"
      documents := ["Previous employment letters", "HR verification", "Work history"]
      actions := ["Provide industry experience proof", "Wait 6 months and reapply", "Add co-applicant"]
      explanation := "employment duration is shorter than preferred" }),
   ("monthly_income",
    { question := "Your monthly income appears low relative to the loan request. Do you have additional income sources?"
      follow_up := "Can you provide proof of additional income?"
      documents := ["Bank statements (3 months)", "Tax returns", "Side income proof", "Investment income"]
      actions := ["Document all income sources", "Add co-applicant with income", "Reduce loan amount by 25%"]
      explanation := "monthly income is below typical range for this loan" }),
   ("fixed_monthly_expenses",
    { question := "Your fixed expenses are high. Can you reduce any recurring costs?"
      follow_up := "Are there any expenses you can cut or debts to consolidate?"
      documents := ["Expense breakdown", "Budget plan", "Debt consolidation plan"]
      actions := ["Reduce discretionary spending", "Consolidate debts", "Cancel unused subscriptions"]
      explanation := "monthly fixed expenses are high relative to income" }),
   ("debt_to_income_ratio",
    { question := "Your debt-to-income ratio is high. Are any debts close to being paid off?"
      follow_up := "Can you provide payoff letters or consolidation plan?"
      documents := ["Current debt statements", "Payoff letters", "Debt consolidation plan"]
      actions := ["Pay down credit card debt", "Consolidate high-interest debt", "Reduce loan amount by 20%"]
      explanation := "monthly debt obligations are high relative to income" }),
   ("savings_balance",
    { question := "Your savings are lower than recommended. Do you have other assets or emergency funds?"
      follow_up := "Can you show other financial reserves or assets?"
      documents := ["Additional bank statements", "Investment account statements", "Asset documentation"]
      actions := ["Build savings for 3 months", "Provide proof of other assets", "Add co-applicant with savings"]
      explanation := "savings cushion is below recommended level" }),
   ("loan_amount",
    { question := "The requested loan amount is high relative to your income. Can you reduce it?"
      follow_up := "What is the minimum amount you actually need?"
      documents := ["Revised loan application", "Detailed budget showing necessity"]
      actions := ["Reduce loan by 20-30%", "Provide collateral", "Add co-borrower with income"]
      explanation := "requested loan amount is high relative to financial capacity" }),
   ("loan_duration_months",
    { question := "The loan duration you've requested may strain your budget. Can you extend or shorten it?"
      follow_up := "Have you calculated different payment scenarios?"
      documents := ["Budget projection", "Payment schedule analysis"]
      actions := ["Adjust loan term for lower payments", "Reduce loan amount instead", "Show ability to handle payments"]
      explanation := "loan duration may not align optimally with financial capacity" }),
   ("loan_purpose",
    { question := "Can you provide more details about how you'll use this loan?"
      follow_up := "Do you have documentation supporting this purpose?"
      documents := ["Invoices", "Quotes", "Business plan", "Purchase agreement"]
      actions := ["Provide detailed purpose documentation", "Show how loan improves income", "Demonstrate ROI"]
      explanation := "loan purpose carries higher risk" }),
   ("credit_score",
    { question := "Your credit score is below preferred levels. Have you had recent financial difficulties?"
      follow_up := "Can you explain any negative items on your credit report?"
      documents := ["Credit report", "Explanation letter", "Proof of resolved debts", "Payment plans"]
      actions := ["Dispute credit report errors", "Pay off collections", "Show recent on-time payments"]
      explanation := "credit score is below the preferred threshold" }),
   ("late_payments_12m",
    { question := "You have some late payments in the last 12 months. What caused these delays?"
      follow_up := "Have your circumstances improved since then?"
      documents := ["Explanation letter", "Recent on-time payment proof", "Employment verification"]
      actions := ["Show 6 months of on-time payments", "Set up autopay", "Provide circumstantial explanation"]
      explanation := "recent payment history shows some delays" }),
   ("missed_payments_12m",
    { question := "You missed some payments recently. Were these due to temporary circumstances?"
      follow_up := "Can you demonstrate improved payment behavior?"
      documents := ["Explanation letter", "Proof of resolved situation", "Recent payment history"]
      actions := ["Show improved payment pattern", "Explain one-time circumstances", "Provide guarantor"]
      explanation := "missed payments in the last year raise concerns" }),
   ("utility_bill_on_time_ratio",
    { question := "Your utility payment history shows some delays. Were there specific circumstances?"
      follow_up := "Can you show recent on-time payments?"
      documents := ["Recent utility bills (3 months)", "Payment receipts", "Autopay setup confirmation"]
      actions := ["Set up autopay for all utilities", "Show 3 months on-time payments", "Provide explanation"]
      explanation := "utility payment history shows inconsistency" }),
   ("income_inflation_ratio",
    { question := "There's a discrepancy between your stated and expected income. Can you clarify?"
      follow_up := "Do you have official documentation of your actual income?"
      documents := ["Official pay stubs", "Tax returns", "Employer letter", "Bank statements"]
      actions := ["Provide official income documentation", "Explain income variations", "Correct any errors"]
      explanation := "declared income differs from expected income patterns" }),
   ("document_mismatch_flag",
    { question := "We noticed some inconsistencies in your submitted documents. Can you clarify these?"
      follow_up := "Can you provide original or certified copies?"
      documents := ["Original documents", "Certified copies", "Additional verification"]
      actions := ["Resubmit documents", "Provide additional verification", "Explain discrepancies"]
      explanation := "submitted documents show some inconsistencies" }),
   ("application_velocity",
    { question := "You've applied for multiple loans recently. Why do you need multiple loans?"
      follow_up := "Are you in financial distress?"
      documents := ["Explanation letter", "Financial situation overview", "Debt management plan"]
      actions := ["Explain multiple applications", "Consolidate loan requests", "Wait before reapplying"]
      explanation := "high number of recent applications raises concerns" }),
   ("geo_location_mismatch",
    { question := "Your location information shows inconsistencies. Can you clarify your current address?"
      follow_up := "Do you have utility bills or proof of current residence?"
      documents := ["Utility bill with current address", "Rental agreement", "ID with current address"]
      actions := ["Update address information", "Provide residence proof", "Explain relocations"]
      explanation := "location information shows inconsistencies" }),
   ("metadata_anomaly_score",
    { question := "We detected some unusual patterns in your application. Can you provide additional verification?"
      follow_up := "Can you come in person for verification?"
      documents := ["Government ID", "Additional verification documents", "In-person verification"]
      actions := ["Visit branch for verification", "Provide additional documents", "Verify identity"]
      explanation := "application metadata shows unusual patterns" })]

/-- Python `fname in FEATURE_KNOWLEDGE` / `FEATURE_KNOWLEDGE[fname]`. -/
def kbLookup (f : String) : Option KnowledgeEntry :=
  List.lookup f FEATURE_KNOWLEDGE

/-- Embedding of the static `PD_IMPROVEMENT_RULES` table
(knowledge_base.py, lines 166-187). -/
def PD_IMPROVEMENT_RULES : List (String × ℚ) :=
  [("debt_to_income_ratio", 0.025),
   ("monthly_income", 0.020),
   ("credit_score", 0.020),
   ("employment_years", 0.015),
   ("savings_balance", 0.015),
   ("late_payments_12m", 0.015),
   ("missed_payments_12m", 0.020),
   ("utility_bill_on_time_ratio", 0.010),
   ("loan_amount", 0.020),
   ("fixed_monthly_expenses", 0.010),
   ("document_mismatch_flag", 0.015),
   ("application_velocity", 0.010),
   ("income_inflation_ratio", 0.015),
   ("age", 0.005),
   ("education_level", 0.008),
   ("employment_type", 0.012),
   ("loan_duration_months", 0.008),
   ("loan_purpose", 0.010),
   ("geo_location_mismatch", 0.012),
   ("metadata_anomaly_score", 0.015)]

/-! ## src/core/borderline_advisor.py -/

/-- The `fraud_flags` dictionary passed to the borderline advisor (built by
the API layer with a `severity` of "hard", "soft" or "none" and a `details`
entry; `details` is a free-form rendering of the fraud result). -/
structure FraudFlags where
  severity : String
  details : String

/-- Embedding of `check_fraud_severity` (borderline_advisor.py, lines 5-14). -/
def check_fraud_severity (fraud_flags : FraudFlags) : String × Option String :=
  if fraud_flags.severity == "hard" then
    ("REJECT", some "Hard fraud detected - recommend rejection")
  else if fraud_flags.severity == "soft" then
    ("VERIFY", some "Document inconsistencies require verification")
  else
    ("PROCEED", none)

/-- Python `FEATURE_KNOWLEDGE.get(f, {}).get("explanation", f)`. -/
def kbExplanation (f : String) : String :=
  match kbLookup f with
  | some kb => kb.explanation
  | none => f

/-- Embedding of `generate_explanation` (borderline_advisor.py,
lines 16-36). -/
def generate_explanation (lime_features : List Attribution) (fraud_status : String) : String :=
  if fraud_status == "VERIFY" then
    "This application requires verification due to document inconsistencies and credit risk factors."
  else
    let negative := lime_features.filter (fun f => f.contribution < 0)
    match negative with
    | f1 :: f2 :: _ =>
      let reason1 := kbExplanation f1.feature
      let reason2 := kbExplanation f2.feature
      s!"This application is borderline because {reason1} and {reason2}."
    | [f1] =>
      let reason1 := kbExplanation f1.feature
      s!"This application is borderline primarily because {reason1}."
    | [] => "This application is borderline and requires manual review."

/-- An interview question of the borderline advisor; the fraud-clarification
question carries no `contribution` entry, hence the `Option`. -/
structure BQuestion where
  order : ℕ
  question : String
  feature : String
  follow_up : String
  contribution : Option ℚ

/-- The loop of `generate_questions` over the top negative attributions
(borderline_advisor.py, lines 57-72), including the `order > 7` cap check
after the increment. -/
def genQuestionsLoop : List Attribution → List BQuestion → ℕ → List BQuestion
  | [], questions, _ => questions
  | feature_data :: rest, questions, order =>
    match kbLookup feature_data.feature with
    | some kb =>
      let questions := questions ++
        [{ order := order, question := kb.question, feature := feature_data.feature,
           follow_up := kb.follow_up, contribution := some feature_data.contribution }]
      if order + 1 > 7 then questions
      else genQuestionsLoop rest questions (order + 1)
    | none => genQuestionsLoop rest questions order

/-- The same loop with the `order > 7` cap check removed; used to state that
the cap check of the source can never trigger. -/
def genQuestionsLoopNoCap : List Attribution → List BQuestion → ℕ → List BQuestion
  | [], questions, _ => questions
  | feature_data :: rest, questions, order =>
    match kbLookup feature_data.feature with
    | some kb =>
      let questions := questions ++
        [{ order := order, question := kb.question, feature := feature_data.feature,
           follow_up := kb.follow_up, contribution := some feature_data.contribution }]
      genQuestionsLoopNoCap rest questions (order + 1)
    | none => genQuestionsLoopNoCap rest questions order

/-- The fraud-clarification question `generate_questions` places first when
a soft flag exists (borderline_advisor.py, lines 45-52). -/
def fraudVerificationQuestion (details : String) : BQuestion :=
  { order := 1
    question := "We noticed some document inconsistencies: " ++ details
    feature := "fraud_verification"
    follow_up := "Please provide original or certified documents for verification."
    contribution := none }

/-- Embedding of `generate_questions` (borderline_advisor.py, lines 38-74):
one fraud-clarification question first when a soft flag exists, then the
knowledge-base questions of the top 5 negative attributions. -/
def generate_questions (lime_features : List Attribution) (fraud_flags : FraudFlags) :
    List BQuestion :=
  let start : List BQuestion × ℕ :=
    if fraud_flags.severity == "soft" then ([fraudVerificationQuestion fraud_flags.details], 2)
    else ([], 1)
  let negative := lime_features.filter (fun f => f.contribution < 0)
  genQuestionsLoop (negative.take 5) start.1 start.2

/-- The variant of `generate_questions` built on the cap-free loop. -/
def generate_questions_nocap (lime_features : List Attribution) (fraud_flags : FraudFlags) :
    List BQuestion :=
  let start : List BQuestion × ℕ :=
    if fraud_flags.severity == "soft" then ([fraudVerificationQuestion fraud_flags.details], 2)
    else ([], 1)
  let negative := lime_features.filter (fun f => f.contribution < 0)
  genQuestionsLoopNoCap (negative.take 5) start.1 start.2

/-- Python's seen-set de-duplication keeping first occurrences
(borderline_advisor.py, lines 88-93). -/
def dedupKeepOrder (l : List String) : List String :=
  l.foldl (fun acc doc => if doc ∈ acc then acc else acc ++ [doc]) []

/-- Embedding of `generate_documents` (borderline_advisor.py, lines 76-95). -/
def generate_documents (lime_features : List Attribution) : List String :=
  let negative := lime_features.filter (fun f => f.contribution < 0)
  let docs := (negative.take 4).foldl (fun acc feature_data =>
    match kbLookup feature_data.feature with
    | some kb => acc ++ kb.documents
    | none => acc) []
  (dedupKeepOrder docs).take 6

/-- An improvement action of the borderline advisor. -/
structure BAction where
  action : String
  feasibility : String
  feature : String
  impact : ℚ

/-- Python `s.lower()`. -/
def lowerStr (s : String) : String :=
  String.mk (s.data.map Char.toLower)

/-- The feasibility bucket of an action string (borderline_advisor.py,
lines 108-114): keyword substring search over the lower-cased text. -/
def actionFeasibility (action : String) : String :=
  if ["reduce", "add co", "provide proof"].any (fun w => strContains (lowerStr action) w) then
    "immediate"
  else if strContains (lowerStr action) "wait" || strContains (lowerStr action) "month" then
    "long-term"
  else
    "short-term"

/-- Sorting relation of the improvement actions: ascending by impact
(most negative contribution first), the source's stable
`sort(key=lambda x: x["impact"])`. -/
abbrev actionLE (a b : BAction) : Prop := a.impact ≤ b.impact

instance : IsTotal BAction actionLE := ⟨fun _ _ => le_total _ _⟩

instance : IsTrans BAction actionLE := ⟨fun _ _ _ h1 h2 => le_trans h1 h2⟩

/-- Embedding of `generate_actions` (borderline_advisor.py, lines 97-135). -/
def generate_actions (lime_features : List Attribution) : List BAction :=
  let negative := lime_features.filter (fun f => f.contribution < 0)
  let actions := (negative.take 4).foldl (fun acc feature_data =>
    match kbLookup feature_data.feature with
    | some kb => acc ++ kb.actions.map (fun action =>
        { action := action, feasibility := actionFeasibility action,
          feature := feature_data.feature, impact := feature_data.contribution })
    | none => acc) []
  let unique := actions.foldl (fun acc x =>
    if acc.any (fun y => y.action == x.action) then acc else acc ++ [x]) []
  (List.insertionSort actionLE unique).take 6

/-- The PD improvement estimate dictionary (borderline_advisor.py,
lines 150-155); the percentage fields are `:.1f`-formatted strings. -/
structure PdEstimate where
  current_pd : String
  potential_pd : String
  improvement : String
  note : String
deriving DecidableEq

/-- Embedding of `estimate_pd_improvement` (borderline_advisor.py,
lines 137-155). -/
def estimate_pd_improvement (lime_features : List Attribution) (current_pd : ℚ) :
    PdEstimate :=
  let negative := lime_features.filter (fun f => f.contribution < 0)
  let total_improvement := (negative.take 5).foldl (fun acc feature_data =>
    match List.lookup feature_data.feature PD_IMPROVEMENT_RULES with
    | some w => acc + w
    | none => acc) 0
  let potential_pd := max 0.03 (current_pd - total_improvement)
  { current_pd := fmtFixed 1 (current_pd * 100) ++ "%"
    potential_pd := fmtFixed 1 (potential_pd * 100) ++ "%"
    improvement := fmtFixed 1 (total_improvement * 100) ++ "%"
    note := "Estimate assumes all recommended actions are completed. Actual improvement may vary." }

/-- The advisory bundle returned by `analyze_borderline_application`; the
REJECT branch returns an empty `pd_improvement_estimate` dictionary,
modelled as `none`. -/
structure Bundle where
  recommendation : String
  explanation : String
  interview_questions : List BQuestion
  documents_needed : List String
  improvement_actions : List BAction
  pd_improvement_estimate : Option PdEstimate

/-- Embedding of `analyze_borderline_application` (borderline_advisor.py,
lines 157-203). -/
def analyze_borderline_application (pd_score : ℚ) (lime_features : List Attribution)
    (fraud_flags : FraudFlags) : Bundle :=
  let checked := check_fraud_severity fraud_flags
  if checked.1 == "REJECT" then
    { recommendation := "REJECT"
      explanation := checked.2.getD ""
      interview_questions := []
      documents_needed := []
      improvement_actions := []
      pd_improvement_estimate := none }
  else
    { recommendation := "MANUAL_REVIEW"
      explanation := generate_explanation lime_features checked.1
      interview_questions := generate_questions lime_features fraud_flags
      documents_needed := generate_documents lime_features
      improvement_actions := generate_actions lime_features
      pd_improvement_estimate := some (estimate_pd_improvement lime_features pd_score) }

/-! ## src/core/interview_questioner.py -/

/-- A raw feature mapping with numeric values, as consumed by the interview
questioner and the improvement suggester. -/
abbrev RawQ := List (String × ℚ)

/-- An interview question of the interview questioner. -/
structure IQuestion where
  order : ℕ
  feature : String
  category : String
  question : String
  purpose : String
  follow_up : String
  priority : String

set_option maxHeartbeats 1000000 in
/-- Embedding of `generate_interview_questions`
(interview_questioner.py, lines 10-234): the fixed sequence of
feature-presence-driven question blocks, the high-risk block for
`pd_score > 0.25`, and the unconditional closing question, capped at 10. -/
def generate_interview_questions (raw_data : RawQ) (lime_features : List LimeFeat)
    (pd_score : ℚ) : List IQuestion :=
  let high_impact := lime_features.filter (fun f => 0.05 < |f.weight|)
  let hiHas := fun name => high_impact.any (fun f => f.feature == name)
  let st0 : List IQuestion × ℕ := ([], 0)
  -- income and employment questions
  let st1 := match List.lookup "monthly_income" raw_data with
    | some monthly_income =>
      let employment_years := (List.lookup "employment_years" raw_data).getD 0
      let miStr := pyFloatRepr monthly_income
      let questions := st0.1 ++
        [{ order := st0.2, feature := "monthly_income", category := "Income",
           question := s!"Your monthly income is listed as {miStr}. Can you walk us through your primary and secondary income sources? Are there any seasonal variations or bonuses we should consider?",
           purpose := "Understand income stability, sources, and growth potential",
           follow_up := "Verify income sources and assess stability",
           priority := if hiHas "monthly_income" then "HIGH" else "MEDIUM" }]
      let order := st0.2 + 1
      if employment_years < 2 then
        let eyStr := pyFloatRepr employment_years
        (questions ++
          [{ order := order, feature := "employment_years", category := "Employment",
             question := s!"You've been in your current employment for {eyStr} year(s). How stable is your position? Have you changed jobs frequently in the past?",
             purpose := "Assess employment stability and career progression",
             follow_up := "Evaluate job stability and tenure reliability",
             priority := if hiHas "employment_years" then "HIGH" else "MEDIUM" }], order + 1)
      else (questions, order)
    | none => st0
  -- expense question
  let st2 := match List.lookup "fixed_monthly_expenses" raw_data with
    | some expenses =>
      let income := (List.lookup "monthly_income" raw_data).getD 1
      let expense_ratio := if 0 < income then expenses / income else 0
      let expStr := pyFloatRepr expenses
      let ratioStr := fmtFixed 0 (expense_ratio * 100) ++ "%"
      (st1.1 ++
        [{ order := st1.2, feature := "fixed_monthly_expenses", category := "Expenses",
           question := s!"Your monthly expenses are {expStr}, which is {ratioStr} of your income. Can you break down your major expense categories? Are there any expenses that could be reduced?",
           purpose := "Understand expense burden and identify reduction opportunities",
           follow_up := "Identify essential vs. discretionary spending",
           priority := if hiHas "fixed_monthly_expenses" then "HIGH" else "MEDIUM" }], st1.2 + 1)
    | none => st1
  -- debt question
  let st3 := match List.lookup "debt_to_income_ratio" raw_data with
    | some dti =>
      let dtiStr := fmtFixed 2 dti
      (st2.1 ++
        [{ order := st2.2, feature := "debt_to_income_ratio", category := "Debt",
           question := s!"Your debt-to-income ratio is {dtiStr}. What are your existing debts (credit cards, loans, mortgages)? What's your strategy for managing this debt?",
           purpose := "Understand existing debt obligations and repayment capacity",
           follow_up := "Assess debt management and repayment plans",
           priority := if hiHas "debt_to_income_ratio" then "HIGH" else "MEDIUM" }], st2.2 + 1)
    | none => st2
  -- credit score question
  let st4 := match List.lookup "credit_score" raw_data with
    | some credit =>
      if credit < 700 then
        let creditStr := pyFloatRepr credit
        (st3.1 ++
          [{ order := st3.2, feature := "credit_score", category := "Credit History",
             question := s!"Your credit score is {creditStr}. Can you explain any late payments, defaults, or negative items on your credit report? What steps have you taken to improve your score?",
             purpose := "Understand credit history issues and remediation efforts",
             follow_up := "Identify credit issues and recovery timeline",
             priority := if hiHas "credit_score" then "HIGH" else "MEDIUM" }], st3.2 + 1)
      else st3
    | none => st3
  -- payment history question
  let st5 := match List.lookup "utility_bill_on_time_ratio" raw_data with
    | some on_time_ratio =>
      if on_time_ratio < 0.98 then
        let ratioStr := fmtFixed 0 (on_time_ratio * 100) ++ "%"
        (st4.1 ++
          [{ order := st4.2, feature := "utility_bill_on_time_ratio", category := "Payment History",
             question := s!"Your utility bill payment history shows {ratioStr} on-time payments. What caused the late payments? Do you have systems in place to prevent late payments going forward?",
             purpose := "Understand payment discipline and reliability",
             follow_up := "Assess payment reliability and commitment",
             priority := "MEDIUM" }], st4.2 + 1)
      else st4
    | none => st4
  -- savings question
  let st6 := match List.lookup "savings_balance" raw_data with
    | some savings =>
      let income := (List.lookup "monthly_income" raw_data).getD 1
      let months_of_savings := if 0 < income then savings / income else 0
      let savStr := pyFloatRepr savings
      (st5.1 ++
        [{ order := st5.2, feature := "savings_balance", category := "Financial Stability",
           question := s!"Your savings balance is {savStr}. How many months of expenses can this cover? Do you have an emergency fund? What's your savings plan going forward?",
           purpose := "Assess financial cushion and emergency preparedness",
           follow_up := "Evaluate financial resilience and safety buffer",
           priority := if months_of_savings < 3 then "MEDIUM" else "LOW" }], st5.2 + 1)
    | none => st5
  -- loan purpose question
  let st7 := match List.lookup "loan_amount" raw_data with
    | some loan_amount =>
      let income := (List.lookup "monthly_income" raw_data).getD 1
      let loan_to_income := if 0 < income then loan_amount / (income * 12) else 0
      let laStr := pyFloatRepr loan_amount
      let ltiStr := fmtFixed 1 loan_to_income
      (st6.1 ++
        [{ order := st6.2, feature := "loan_amount", category := "Loan Purpose",
           question := s!"You're requesting a loan of {laStr}, which is {ltiStr}x your annual income. What is the purpose of this loan? How will this loan improve your financial situation?",
           purpose := "Understand loan purpose and expected ROI",
           follow_up := "Assess loan necessity and intended use",
           priority := "HIGH" }], st6.2 + 1)
    | none => st6
  -- loan duration question
  let st8 := match List.lookup "loan_duration_months" raw_data with
    | some duration =>
      let amount := (List.lookup "loan_amount" raw_data).getD 1
      let monthly_payment := if 0 < duration then amount / duration else 0
      let income := (List.lookup "monthly_income" raw_data).getD 1
      let payment_ratio := if 0 < income then monthly_payment / income else 0
      let durStr := pyFloatRepr duration
      let mpStr := fmtFixed 0 monthly_payment
      let prStr := fmtFixed 0 (payment_ratio * 100) ++ "%"
      (st7.1 ++
        [{ order := st7.2, feature := "loan_duration_months", category := "Loan Terms",
           question := s!"With a {durStr}-month loan term, your estimated monthly payment would be {mpStr}, which is {prStr} of your income. Can you comfortably afford this payment?",
           purpose := "Verify affordability and repayment capacity",
           follow_up := "Confirm payment affordability and commitment",
           priority := "HIGH" }], st7.2 + 1)
    | none => st7
  -- general closing questions
  let st9 := if 0.25 < pd_score then
      (st8.1 ++
        [{ order := st8.2, feature := "overall_risk", category := "Risk Mitigation",
           question := "Based on our analysis, there are some financial risks we've identified. What would make you feel confident about taking on this loan? Are there any co-signers or collateral options you'd consider?",
           purpose := "Explore risk mitigation strategies",
           follow_up := "Assess willingness to mitigate identified risks",
           priority := "HIGH" }], st8.2 + 1)
    else st8
  let questions := st9.1 ++
    [{ order := st9.2, feature := "overall", category := "Additional Information",
       question := "Is there anything else about your financial situation, employment, or personal circumstances that we should know about? Any changes coming up in the next 12 months?",
       purpose := "Capture any relevant information not covered by the form",
       follow_up := "Uncover additional context or upcoming changes",
       priority := "MEDIUM" }]
  questions.take 10

/-! ## src/core/improvement_suggester.py -/

/-- The kind of tweak a `FEATURE_TWEAKS` entry applies, mirroring which of
the keys `increase_percent`, `decrease_percent`, `increase_years`,
`increase_points`, `target` the source dictionary holds. -/
inductive TweakKind where
  | increase_percent (p : ℚ)
  | decrease_percent (p : ℚ)
  | increase_years (n : ℚ)
  | increase_points (n : ℚ)
  | target (t : ℚ)

/-- One entry of the `FEATURE_TWEAKS` catalog; `get_suggestion` is the
entry's suggestion-text lambda, already applied to the entry's own tweak
magnitude (the source always passes the entry's own constant). -/
structure Tweak where
  feature : String
  kind : TweakKind
  unit : String
  get_suggestion : ℚ → String
  user_friendly : String
  feasibility : String

/-- Embedding of the `FEATURE_TWEAKS` catalog (improvement_suggester.py,
lines 13-77), in source order. -/
def FEATURE_TWEAKS : List Tweak :=
  [{ feature := "monthly_income", kind := .increase_percent 0.15, unit := "USD",
     get_suggestion := fun orig_val =>
       let n := pyTrunc (orig_val * 0.15)
       s!"Increase verified monthly income by {n} USD",
     user_friendly := "Higher monthly income", feasibility := "long-term" },
   { feature := "fixed_monthly_expenses", kind := .decrease_percent 0.20, unit := "USD",
     get_suggestion := fun orig_val =>
       let n := pyTrunc (orig_val * 0.20)
       s!"Reduce monthly expenses by {n} USD",
     user_friendly := "Lower monthly expenses", feasibility := "short-term" },
   { feature := "savings_balance", kind := .increase_percent 0.25, unit := "USD",
     get_suggestion := fun orig_val =>
       let n := pyTrunc (orig_val * 0.25)
       s!"Increase savings balance by {n} USD",
     user_friendly := "Increase savings balance", feasibility := "long-term" },
   { feature := "employment_years", kind := .increase_years 2, unit := "years",
     get_suggestion := fun _ => "Maintain stable employment for 2 more years",
     user_friendly := "Longer employment history", feasibility := "long-term" },
   { feature := "credit_score", kind := .increase_points 50, unit := "points",
     get_suggestion := fun _ => "Improve credit score by 50 points",
     user_friendly := "Higher credit score", feasibility := "short-term" },
   { feature := "utility_bill_on_time_ratio", kind := .target 0.98, unit := "%",
     get_suggestion := fun orig_val =>
       let c := pyTrunc (orig_val * 100)
       s!"Ensure 98% of utility bills are paid on time (currently {c}%)",
     user_friendly := "Better payment history", feasibility := "short-term" },
   { feature := "loan_amount", kind := .decrease_percent 0.15, unit := "USD",
     get_suggestion := fun orig_val =>
       let n := pyTrunc (orig_val * 0.15)
       s!"Reduce loan request by {n} USD",
     user_friendly := "Lower loan amount", feasibility := "immediate" },
   { feature := "loan_duration_months", kind := .decrease_percent 0.20, unit := "months",
     get_suggestion := fun orig_val =>
       let n := pyTrunc (orig_val * 0.20)
       s!"Choose a shorter loan term (reduce by {n} months)",
     user_friendly := "Shorter loan term", feasibility := "immediate" },
   { feature := "debt_to_income_ratio", kind := .decrease_percent 0.15, unit := "%",
     get_suggestion := fun orig_val =>
       let n := pyTrunc (orig_val * 100 * 0.15)
       s!"Reduce debt-to-income ratio by {n}% points",
     user_friendly := "Lower debt-to-income ratio", feasibility := "short-term" }]

/-- Applying a tweak to a feature's original value
(improvement_suggester.py, lines 118-128). -/
def applyTweak (kind : TweakKind) (original_value : ℚ) : ℚ :=
  match kind with
  | .increase_percent p => original_value * (1 + p)
  | .decrease_percent p => original_value * (1 - p)
  | .increase_years n => original_value + n
  | .increase_points n => original_value + n
  | .target t => t

/-- Python dict assignment `X_test[feature_name] = v`: replace in place when
the key exists, append otherwise. -/
def setField (raw : RawQ) (k : String) (v : ℚ) : RawQ :=
  if raw.any (fun p => p.1 == k) then
    raw.map (fun p => if p.1 == k then (k, v) else p)
  else raw ++ [(k, v)]

/-- Embedding of `test_feature_improvement` (improvement_suggester.py,
lines 80-146). The classifier is external: `pdFn raw` is the default
probability `1.0 - predict_proba(raw)[approve_idx]` it yields. Returns
`(pd_orig, pd_mod, v)` where `v` is the numeric value of the returned
improvement string: the source formats `improvement_percent` with `:.1f`
(round half to even at one decimal) when `improvement > 0` and returns
`"0%"` otherwise, and `generate_ai_suggestions` parses that string back
into a float. -/
def test_feature_improvement (raw_data : RawQ) (pdFn : RawQ → ℚ) (t : Tweak) :
    ℚ × ℚ × ℚ :=
  let pd_orig := pdFn raw_data
  let original_value := (List.lookup t.feature raw_data).getD 0
  let modified := setField raw_data t.feature (applyTweak t.kind original_value)
  let pd_mod := pdFn modified
  let improvement := pd_orig - pd_mod
  let improvement_percent := if 0 < pd_orig then improvement / pd_orig * 100 else 0
  (pd_orig, pd_mod, if 0 < improvement then pyRound 1 improvement_percent else 0)

/-- The improvement percentage a feature's tweak achieves, as the
specification states it: `(baseline_pd - modified_pd) / baseline_pd * 100`,
taken as 0 when the baseline PD is not positive. -/
def improvementPercent (raw_data : RawQ) (pdFn : RawQ → ℚ) (t : Tweak) : ℚ :=
  let res := test_feature_improvement raw_data pdFn t
  if 0 < res.1 then (res.1 - res.2.1) / res.1 * 100 else 0

/-- A suggestion record of `generate_ai_suggestions`; `pd_reduction` holds
the numeric value of the source's percentage string. -/
structure Suggestion where
  feature : String
  current_value : ℚ
  suggestion : String
  user_friendly : String
  pd_reduction : ℚ
  new_estimated_pd : String
  feasibility : String
  impact_score : ℚ
  lime_weight : Option ℚ

/-- Sorting relation of the suggestions: descending by impact score
(the source's stable `sort(key=..., reverse=True)`). -/
abbrev suggGE (a b : Suggestion) : Prop := b.impact_score ≤ a.impact_score

instance : IsTotal Suggestion suggGE := ⟨fun _ _ => le_total _ _⟩

instance : IsTrans Suggestion suggGE := ⟨fun _ _ _ h1 h2 => le_trans h2 h1⟩

/-- The per-feature body of `generate_ai_suggestions`
(improvement_suggester.py, lines 175-230): skip a catalog feature absent
from the input, test the present ones, and append a suggestion whenever the
(1-decimal) improvement percentage exceeds 0.1. -/
def suggestStep (raw_data : RawQ) (pdFn : RawQ → ℚ) (lime_features : List LimeFeat)
    (acc : List Suggestion) (t : Tweak) : List Suggestion :=
  if (List.lookup t.feature raw_data).isNone then acc
  else
    let res := test_feature_improvement raw_data pdFn t
    let improvement_float := res.2.2
    if 0.1 < improvement_float then
      let lime_contribution := (lime_features.find? (fun f =>
        strContains (lowerStr f.feature) (lowerStr t.feature))).map (fun f => f.weight)
      let original_value := (List.lookup t.feature raw_data).getD 0
      acc ++ [{ feature := t.feature
                current_value := original_value
                suggestion := t.get_suggestion original_value
                user_friendly := t.user_friendly
                pd_reduction := improvement_float
                new_estimated_pd := fmtFixed 2 (res.2.1 * 100) ++ "%"
                feasibility := t.feasibility
                impact_score := improvement_float
                lime_weight := lime_contribution }]
    else acc

/-- Embedding of `generate_ai_suggestions` (improvement_suggester.py,
lines 149-237): test every catalog feature present in the input, keep those
whose (1-decimal) improvement percentage exceeds 0.1, sort (stably)
descending by impact score, return the top 5. `current_pd` is only printed
by the source and does not influence the result. -/
def generate_ai_suggestions (raw_data : RawQ) (pdFn : RawQ → ℚ) (current_pd : ℚ)
    (lime_features : List LimeFeat) : List Suggestion :=
  let _ := current_pd
  let suggestions := FEATURE_TWEAKS.foldl (suggestStep raw_data pdFn lime_features) []
  (List.insertionSort suggGE suggestions).take 5

/-- Specification-side expression for the PD improvement estimate: the sum
of the knowledge-base PD-improvement weights over the top 5 negative
attributions (0 for a feature without a rule). -/
def topNegativeWeightSum (lime_features : List Attribution) : ℚ :=
  (((lime_features.filter (fun f => f.contribution < 0)).take 5).map
    (fun f => (List.lookup f.feature PD_IMPROVEMENT_RULES).getD 0)).sum

/-- The concrete analysis record produced for the application
`{"is_fraud": 1}` with approve probability 0.9 and a failed explainer;
used to witness the decision-level claims at a concrete input. -/
def demoAnalysis : Analysis :=
  { decision := "BLOCKED_FRAUD"
    risk_band := "APPROVED"
    pd_score := 0.1
    pd_percent := 10
    approve_probability_percent := 90
    thresholds := (0.70, 0.40)
    fraud := ⟨"BLOCK", 0.6, [⟨"explicit_fraud_label", "hard"⟩]⟩
    fraud_decision := "BLOCK"
    fraud_score := 0.6
    lime_features := []
    feature_snapshot := []
    summary := "Blocked due to fraud signal: explicit_fraud_label. Manual verification required."
    input_data := [("is_fraud", Val.num 1)] }

/-! ## Helper lemmas -/

lemma bind_ok {α β : Type} {x : Except String α} {f : α → Except String β} {b : β}
    (h : x.bind f = .ok b) : ∃ a, x = .ok a ∧ f a = .ok b := by
  cases x with
  | error e => simp [Except.bind] at h
  | ok a => exact ⟨a, rfl, h⟩

lemma sumWeights_append (l : List Flag) (f : Flag) :
    sumWeights (l ++ [f]) = sumWeights l + flagWeight f.name := by
  simp [sumWeights]

lemma addFlag_stepOk {st : List Flag × ℚ} (c : Bool) (f : Flag) (w : ℚ)
    (hw : flagWeight f.name = w) (k : ℤ) (hk : w * 100 = k)
    (h : stepOk st) : stepOk (addFlag c f w st) := by
  obtain ⟨h1, m, hm⟩ := h
  cases c with
  | false => exact ⟨h1, m, hm⟩
  | true =>
    refine ⟨?_, m + k, ?_⟩
    · simp only [addFlag, if_pos]
      rw [sumWeights_append, hw, h1]
    · simp only [addFlag, if_pos]
      push_cast
      rw [add_mul, hm, hk]

lemma pyRound_eq_self {n : ℕ} {x : ℚ} (k : ℤ) (hk : x * 10 ^ n = k) :
    pyRound n x = x := by
  have h10 : (10 : ℚ) ^ n ≠ 0 := by positivity
  unfold pyRound rhe
  rw [hk]
  simp only [Int.floor_intCast, sub_self]
  rw [if_pos (by norm_num : (0 : ℚ) < 1/2)]
  exact (div_eq_iff h10).mpr hk.symm

/-- Characterization of a successful `fraud_check` run: the reported score
is the clamped, rounded weight sum of the reported flags (the rounding is
the identity there), and the decision is BLOCK exactly when a hard flag was
appended. -/
lemma fraud_check_ok {raw : RawMap} {r : FraudResult}
    (h : fraud_check raw = .ok r) :
    r.fraud_score = min 1 (sumWeights r.flags) ∧
    (r.decision = "BLOCK" ↔ ∃ f ∈ r.flags, f.severity = "hard") ∧
    (r.decision = "BLOCK" ∨ r.decision = "PASS") := by
  unfold fraud_check at h
  obtain ⟨v1, hv1, h⟩ := bind_ok h
  obtain ⟨v2, hv2, h⟩ := bind_ok h
  obtain ⟨v3, hv3, h⟩ := bind_ok h
  obtain ⟨v4, hv4, h⟩ := bind_ok h
  obtain ⟨v5, hv5, h⟩ := bind_ok h
  obtain ⟨v6, hv6, h⟩ := bind_ok h
  obtain ⟨v7, hv7, h⟩ := bind_ok h
  obtain ⟨v8, hv8, h⟩ := bind_ok h
  obtain ⟨v9, hv9, h⟩ := bind_ok h
  simp only [Except.ok.injEq] at h
  subst h
  have i0 : stepOk ([], 0) := ⟨by simp [sumWeights], 0, by norm_num⟩
  have i1 := addFlag_stepOk (v1 == 1) ⟨"explicit_fraud_label", "hard"⟩ 0.60
    (by simp [flagWeight]) 60 (by norm_num) i0
  have i2 := addFlag_stepOk (v2 == 1) ⟨"document_mismatch", "hard"⟩ 0.35
    (by simp [flagWeight]) 35 (by norm_num) i1
  have i3 := addFlag_stepOk (decide (0.80 ≤ v3)) ⟨"metadata_anomaly_high", "hard"⟩ 0.35
    (by simp [flagWeight]) 35 (by norm_num) i2
  have i4 := addFlag_stepOk (decide (2.50 ≤ v4)) ⟨"income_inflation_extreme", "hard"⟩ 0.35
    (by simp [flagWeight]) 35 (by norm_num) i3
  have i5 := addFlag_stepOk (v5 == 1) ⟨"geo_location_mismatch", "soft"⟩ 0.15
    (by simp [flagWeight]) 15 (by norm_num) i4
  have i6 := addFlag_stepOk (expensesGtIncomeCond raw) ⟨"expenses_gt_income", "soft"⟩ 0.15
    (by simp [flagWeight]) 15 (by norm_num) i5
  have i7 := addFlag_stepOk (decide (3 ≤ v6)) ⟨"rapid_multiple_applications", "soft"⟩ 0.15
    (by simp [flagWeight]) 15 (by norm_num) i6
  have i8 := addFlag_stepOk (decide (3 ≤ v7)) ⟨"many_missed_payments_12m", "soft"⟩ 0.12
    (by simp [flagWeight]) 12 (by norm_num) i7
  have i9 := addFlag_stepOk (decide (v8 < 0.30)) ⟨"low_utility_on_time_ratio", "soft"⟩ 0.12
    (by simp [flagWeight]) 12 (by norm_num) i8
  have i10 := addFlag_stepOk (decide (1.50 ≤ v9) && decide (v9 < 2.50))
    ⟨"income_inflation_moderate", "soft"⟩ 0.12 (by simp [flagWeight]) 12 (by norm_num) i9
  obtain ⟨hsum, m, hm⟩ := i10
  set st := addFlag (decide (1.50 ≤ v9) && decide (v9 < 2.50))
    ⟨"income_inflation_moderate", "soft"⟩ 0.12
    (addFlag (decide (v8 < 0.30)) ⟨"low_utility_on_time_ratio", "soft"⟩ 0.12
    (addFlag (decide (3 ≤ v7)) ⟨"many_missed_payments_12m", "soft"⟩ 0.12
    (addFlag (decide (3 ≤ v6)) ⟨"rapid_multiple_applications", "soft"⟩ 0.15
    (addFlag (expensesGtIncomeCond raw) ⟨"expenses_gt_income", "soft"⟩ 0.15
    (addFlag (v5 == 1) ⟨"geo_location_mismatch", "soft"⟩ 0.15
    (addFlag (decide (2.50 ≤ v4)) ⟨"income_inflation_extreme", "hard"⟩ 0.35
    (addFlag (decide (0.80 ≤ v3)) ⟨"metadata_anomaly_high", "hard"⟩ 0.35
    (addFlag (v2 == 1) ⟨"document_mismatch", "hard"⟩ 0.35
    (addFlag (v1 == 1) ⟨"explicit_fraud_label", "hard"⟩ 0.60 ([], 0)))))))))) with hst
  refine ⟨?_, ?_, ?_⟩
  · show pyRound 3 (min st.2 1) = min 1 (sumWeights st.1)
    have hmin : ∃ k : ℤ, (min st.2 1) * 10 ^ 3 = k := by
      rcases le_total st.2 1 with hle | hle
      · refine ⟨m * 10, ?_⟩
        rw [min_eq_left hle]
        push_cast
        rw [show ((10 : ℚ) ^ 3) = 100 * 10 by norm_num, ← mul_assoc, hm]
      · exact ⟨1000, by rw [min_eq_right hle]; norm_num⟩
    obtain ⟨k, hk⟩ := hmin
    rw [pyRound_eq_self k hk, hsum, min_comm]
  · show (if st.1.any (fun f => f.severity == "hard") then "BLOCK" else "PASS") = "BLOCK"
      ↔ ∃ f ∈ st.1, f.severity = "hard"
    by_cases hany : st.1.any (fun f => f.severity == "hard") = true
    · rw [if_pos hany]
      simp only [List.any_eq_true, beq_iff_eq] at hany
      exact iff_of_true rfl hany
    · rw [if_neg hany]
      simp only [List.any_eq_true, beq_iff_eq] at hany
      exact iff_of_false (by simp) hany
  · show (if st.1.any (fun f => f.severity == "hard") then "BLOCK" else "PASS") = "BLOCK"
      ∨ (if st.1.any (fun f => f.severity == "hard") then "BLOCK" else "PASS") = "PASS"
    by_cases hany : st.1.any (fun f => f.severity == "hard") = true
    · exact Or.inl (by rw [if_pos hany])
    · exact Or.inr (by rw [if_neg hany])

lemma lookup_mem {l : RawMap} {k : String} {v : Val}
    (h : List.lookup k l = some v) : (k, v) ∈ l := by
  induction l with
  | nil => simp [List.lookup] at h
  | cons p rest ih =>
    obtain ⟨a, b⟩ := p
    rw [List.lookup] at h
    by_cases hk : (k == a) = true
    · rw [hk] at h
      obtain rfl : b = v := by simpa using h
      obtain rfl : k = a := by simpa using hk
      exact List.mem_cons_self _ _
    · rw [Bool.not_eq_true] at hk
      rw [hk] at h
      exact List.mem_cons_of_mem _ (ih h)

lemma numeric_rawGetD {raw : RawMap} (hnum : NumericMap raw) (k : String) (d : ℚ) :
    ∃ q : ℚ, rawGetD raw k (.num d) = .num q := by
  unfold rawGetD
  cases hl : List.lookup k raw with
  | none => exact ⟨d, rfl⟩
  | some v =>
    obtain ⟨q, hq⟩ := hnum (k, v) (lookup_mem hl)
    exact ⟨q, by simpa using hq⟩

lemma risk_band_ne_blocked (p : ℚ) : risk_band_from_pd p ≠ "BLOCKED_FRAUD" := by
  unfold risk_band_from_pd
  split_ifs <;> simp

/-- Concrete evaluation of `fraud_check` on the input `{"is_fraud": 1}`. -/
lemma fraud_check_demo :
    fraud_check [("is_fraud", Val.num 1)]
      = .ok ⟨"BLOCK", 0.6, [⟨"explicit_fraud_label", "hard"⟩]⟩ := by
  have l1 : List.lookup "is_fraud" ([("is_fraud", Val.num 1)] : List (String × Val))
      = some (Val.num 1) := rfl
  have l2 : List.lookup "document_mismatch_flag"
      ([("is_fraud", Val.num 1)] : List (String × Val)) = none := rfl
  have l3 : List.lookup "metadata_anomaly_score"
      ([("is_fraud", Val.num 1)] : List (String × Val)) = none := rfl
  have l4 : List.lookup "income_inflation_ratio"
      ([("is_fraud", Val.num 1)] : List (String × Val)) = none := rfl
  have l5 : List.lookup "geo_location_mismatch"
      ([("is_fraud", Val.num 1)] : List (String × Val)) = none := rfl
  have l6 : List.lookup "monthly_income"
      ([("is_fraud", Val.num 1)] : List (String × Val)) = none := rfl
  have l7 : List.lookup "fixed_monthly_expenses"
      ([("is_fraud", Val.num 1)] : List (String × Val)) = none := rfl
  have l8 : List.lookup "application_velocity"
      ([("is_fraud", Val.num 1)] : List (String × Val)) = none := rfl
  have l9 : List.lookup "missed_payments_12m"
      ([("is_fraud", Val.num 1)] : List (String × Val)) = none := rfl
  have l10 : List.lookup "utility_bill_on_time_ratio"
      ([("is_fraud", Val.num 1)] : List (String × Val)) = none := rfl
  unfold fraud_check rawGetD expensesGtIncomeCond
  rw [l1, l2, l3, l4, l5, l6, l7, l8, l9, l10]
  norm_num [pyInt, pyFloat, pyTrunc, Except.bind, addFlag, pyRound, rhe, min_def,
    Int.floor_intCast]

/-! ## Claim theorems -/

/-- C2: for every approve probability p in [0,1], the risk band is APPROVED
iff p ≥ 0.70, REJECTED iff p ≤ 0.40, and MIDDLE iff 0.40 < p < 0.70; the
three bands form a total, mutually exclusive partition of [0,1]. -/
theorem risk_band_partition {p : ℚ} (h0 : 0 ≤ p) (h1 : p ≤ 1) :
    (risk_band_from_pd p = "APPROVED" ↔ 0.70 ≤ p) ∧
    (risk_band_from_pd p = "REJECTED" ↔ p ≤ 0.40) ∧
    (risk_band_from_pd p = "MIDDLE" ↔ 0.40 < p ∧ p < 0.70) := by
  unfold risk_band_from_pd APPROVE_TH REJECT_TH
  split_ifs with ha hr
  · refine ⟨iff_of_true rfl ha, iff_of_false (by simp) ?_, iff_of_false (by simp) ?_⟩
    · intro hc; norm_num at ha hc; linarith
    · rintro ⟨_, hc⟩; norm_num at ha hc; linarith
  · refine ⟨iff_of_false (by simp) ha, iff_of_true rfl hr, iff_of_false (by simp) ?_⟩
    rintro ⟨hc, _⟩; norm_num at hr hc; linarith
  · refine ⟨iff_of_false (by simp) ha, iff_of_false (by simp) hr, iff_of_true rfl ⟨?_, ?_⟩⟩
    · exact lt_of_not_le hr
    · exact lt_of_not_le ha

/-- Witness for C2 at p = 0.5. -/
theorem risk_band_partition_witness :
    (risk_band_from_pd 0.5 = "APPROVED" ↔ (0.70 : ℚ) ≤ 0.5) ∧
    (risk_band_from_pd 0.5 = "REJECTED" ↔ (0.5 : ℚ) ≤ 0.40) ∧
    (risk_band_from_pd 0.5 = "MIDDLE" ↔ (0.40 : ℚ) < 0.5 ∧ (0.5 : ℚ) < 0.70) :=
  risk_band_partition (by norm_num) (by norm_num)

/-- C3: whenever `fraud_check` returns, the reported fraud_score equals
min(1.0, the sum of the weights of all matched rules), and the decision is
BLOCK exactly when some matched flag has severity "hard", irrespective of
the soft flags or the size of the score. -/
theorem fraud_check_score_block_spec {raw : RawMap} {r : FraudResult}
    (h : fraud_check raw = .ok r) :
    r.fraud_score = min 1 (sumWeights r.flags) ∧
    (r.decision = "BLOCK" ↔ ∃ f ∈ r.flags, f.severity = "hard") :=
  ⟨(fraud_check_ok h).1, (fraud_check_ok h).2.1⟩

/-- Witness for C3 on the input `{"is_fraud": 1}`. -/
theorem fraud_check_score_block_spec_witness :
    (FraudResult.mk "BLOCK" 0.6 [⟨"explicit_fraud_label", "hard"⟩]).fraud_score
      = min 1 (sumWeights (FraudResult.mk "BLOCK" 0.6 [⟨"explicit_fraud_label", "hard"⟩]).flags) ∧
    ((FraudResult.mk "BLOCK" 0.6 [⟨"explicit_fraud_label", "hard"⟩]).decision = "BLOCK" ↔
      ∃ f ∈ (FraudResult.mk "BLOCK" 0.6 [⟨"explicit_fraud_label", "hard"⟩]).flags,
        f.severity = "hard") :=
  fraud_check_score_block_spec fraud_check_demo

/-- C4 counterexample: on the mapping `{"is_fraud": None}` (a non-numeric
feature value), `fraud_check` raises a TypeError instead of coercing and
continuing. -/
theorem fraud_check_raises_on_non_numeric :
    fraud_check [("is_fraud", Val.none)]
      = .error "TypeError: int() argument is not a number" := by
  unfold fraud_check rawGetD
  norm_num [List.lookup, pyInt, Except.bind, beq_iff_eq]

/-- C4 amended: `fraud_check` raises no exception on a mapping whose present
values are all numeric — absent fields are coerced to their documented
defaults and rule evaluation continues (only the income/expenses pair also
tolerates non-numeric values, its rule being skipped); the input mapping is
never mutated (the embedding is pure, as is the source, which only rebinds
locals). A non-numeric value in any other rule field aborts instead. -/
theorem fraud_check_numeric_no_exception {raw : RawMap} (hnum : NumericMap raw) :
    ∃ r, fraud_check raw = .ok r := by
  obtain ⟨q1, h1⟩ := numeric_rawGetD hnum "is_fraud" 0
  obtain ⟨q2, h2⟩ := numeric_rawGetD hnum "document_mismatch_flag" 0
  obtain ⟨q3, h3⟩ := numeric_rawGetD hnum "metadata_anomaly_score" 0.0
  obtain ⟨q4, h4⟩ := numeric_rawGetD hnum "income_inflation_ratio" 1.0
  obtain ⟨q5, h5⟩ := numeric_rawGetD hnum "geo_location_mismatch" 0
  obtain ⟨q6, h6⟩ := numeric_rawGetD hnum "application_velocity" 0
  obtain ⟨q7, h7⟩ := numeric_rawGetD hnum "missed_payments_12m" 0
  obtain ⟨q8, h8⟩ := numeric_rawGetD hnum "utility_bill_on_time_ratio" 1.0
  unfold fraud_check
  rw [h1, h2, h3, h4, h5, h6, h7, h8]
  simp only [pyInt, pyFloat, Except.bind]
  exact ⟨_, rfl⟩

/-- Witness for the amended C4 on the numeric mapping `{"is_fraud": 0}`. -/
theorem fraud_check_numeric_no_exception_witness :
    ∃ r, fraud_check [("is_fraud", Val.num 0)] = .ok r :=
  fraud_check_numeric_no_exception (by
    intro p hp
    simp only [List.mem_singleton] at hp
    exact ⟨0, by rw [hp]⟩)

lemma demoAnalysis_eval :
    analyze_application_complete [("is_fraud", Val.num 1)] 0.9 (.error "explainer down")
      = .ok demoAnalysis := by
  unfold analyze_application_complete
  rw [fraud_check_demo]
  simp only [Except.bind]
  unfold demoAnalysis
  simp only [Except.ok.injEq, Analysis.mk.injEq]
  refine ⟨?_, ?_, ?_, ?_, ?_, ?_, ?_, ?_, ?_, ?_, ?_, ?_, ?_⟩
  · simp
  · norm_num [risk_band_from_pd, APPROVE_TH]
  · norm_num
  · norm_num [pyRound, rhe, Int.floor_intCast]
  · norm_num [pyRound, rhe, Int.floor_intCast]
  · norm_num [APPROVE_TH, REJECT_TH]
  · trivial
  · trivial
  · trivial
  · trivial
  · rfl
  · norm_num [build_summary, joinSep]
    rfl
  · trivial

/-- C1: whenever `analyze_application_complete` returns, the final decision
is BLOCKED_FRAUD if and only if the fraud check matched at least one flag of
severity "hard"; a fraud BLOCK forces BLOCKED_FRAUD regardless of the
computed risk band. -/
theorem analyze_blocked_iff_hard_flag {raw : RawMap} {p : ℚ}
    {expl : Except String (List (String × ℚ))} {a : Analysis}
    (h : analyze_application_complete raw p expl = .ok a) :
    (a.decision = "BLOCKED_FRAUD" ↔ ∃ f ∈ a.fraud.flags, f.severity = "hard") ∧
    (a.fraud.decision = "BLOCK" → a.decision = "BLOCKED_FRAUD") := by
  unfold analyze_application_complete at h
  obtain ⟨fr, hfr, h⟩ := bind_ok h
  simp only [Except.ok.injEq] at h
  subst h
  obtain ⟨-, hiff, -⟩ := fraud_check_ok hfr
  by_cases hb : (fr.decision == "BLOCK") = true
  · refine ⟨?_, fun _ => ?_⟩
    · show (if (fr.decision == "BLOCK") = true then "BLOCKED_FRAUD"
          else risk_band_from_pd p) = "BLOCKED_FRAUD" ↔ ∃ f ∈ fr.flags, f.severity = "hard"
      rw [if_pos hb]
      exact iff_of_true rfl (hiff.mp (by simpa using hb))
    · show (if (fr.decision == "BLOCK") = true then "BLOCKED_FRAUD"
          else risk_band_from_pd p) = "BLOCKED_FRAUD"
      rw [if_pos hb]
  · refine ⟨?_, fun hB => absurd (by simpa using hB : (fr.decision == "BLOCK") = true) hb⟩
    show (if (fr.decision == "BLOCK") = true then "BLOCKED_FRAUD"
        else risk_band_from_pd p) = "BLOCKED_FRAUD" ↔ ∃ f ∈ fr.flags, f.severity = "hard"
    rw [if_neg hb]
    refine iff_of_false (risk_band_ne_blocked p) (fun hex => ?_)
    exact hb (by simp [hiff.mpr hex])

/-- Witness for C1: the application `{"is_fraud": 1}` with approve
probability 0.9 (risk band APPROVED) and a failed explainer is decided
BLOCKED_FRAUD via the hard `explicit_fraud_label` flag. -/
theorem analyze_blocked_iff_hard_flag_witness :
    (demoAnalysis.decision = "BLOCKED_FRAUD" ↔
      ∃ f ∈ demoAnalysis.fraud.flags, f.severity = "hard") ∧
    (demoAnalysis.fraud.decision = "BLOCK" → demoAnalysis.decision = "BLOCKED_FRAUD") :=
  analyze_blocked_iff_hard_flag demoAnalysis_eval


lemma foldl_add_lookup (l : List Attribution) (acc : ℚ) :
    l.foldl (fun a f => match List.lookup f.feature PD_IMPROVEMENT_RULES with
        | some w => a + w
        | none => a) acc
      = acc + (l.map (fun f => (List.lookup f.feature PD_IMPROVEMENT_RULES).getD 0)).sum := by
  induction l generalizing acc with
  | nil => simp
  | cons f rest ih =>
    rw [List.foldl_cons, List.map_cons, List.sum_cons, ih]
    cases h : List.lookup f.feature PD_IMPROVEMENT_RULES with
    | none => simp [h]
    | some w => simp [h]; ring

/-- C9: `estimate_pd_improvement` sums the static per-feature knowledge-base
weights over the top 5 negative attributions, floors the potential PD at
0.03, and reports the three figures as :.1f percentages with the caveat
note. -/
theorem estimate_pd_improvement_spec (lf : List Attribution) (current_pd : ℚ) :
    estimate_pd_improvement lf current_pd =
      { current_pd := fmtFixed 1 (current_pd * 100) ++ "%"
        potential_pd := fmtFixed 1 ((max 0.03 (current_pd - topNegativeWeightSum lf)) * 100) ++ "%"
        improvement := fmtFixed 1 (topNegativeWeightSum lf * 100) ++ "%"
        note := "Estimate assumes all recommended actions are completed. Actual improvement may vary." } := by
  unfold estimate_pd_improvement topNegativeWeightSum
  simp only []
  rw [foldl_add_lookup, zero_add]

/-- C8 counterexample: on the explainer output `[("a", 1/2), ("b", 1/2)]`
(two features with equal contribution) the adapter's attribution list is not
strictly descending in absolute contribution: the two adjacent entries tie. -/
theorem lime_sort_not_strict_counterexample :
    ¬ List.Chain' (fun a b => |b.contribution| < |a.contribution|)
      (LoanLimeExplainer.explain [("a", (1 : ℚ)/2), ("b", (1 : ℚ)/2)]) := by
  have hft : firstToken "a" = "a" := rfl
  have hft2 : firstToken "b" = "b" := rfl
  unfold LoanLimeExplainer.explain
  simp only [List.map_cons, List.map_nil, hft, hft2]
  norm_num [List.insertionSort, List.orderedInsert, attrGE, List.chain'_cons]

/-- C8 amended: the attribution list of the explanation adapter is always
sorted in (non-strictly) descending order of absolute contribution; strict
descent fails exactly on ties, whose relative order the stable sort
preserves. -/
theorem lime_attributions_sorted_desc_abs (explanation_list : List (String × ℚ)) :
    List.Sorted attrGE (LoanLimeExplainer.explain explanation_list) :=
  List.sorted_insertionSort attrGE _

lemma genQuestionsLoop_eq_nocap (l : List Attribution) :
    ∀ (qs : List BQuestion) (order : ℕ), order + l.length ≤ 8 →
      genQuestionsLoop l qs order = genQuestionsLoopNoCap l qs order := by
  induction l with
  | nil => intro qs order _; rfl
  | cons f rest ih =>
    intro qs order h
    rw [genQuestionsLoop, genQuestionsLoopNoCap]
    cases hkb : kbLookup f.feature with
    | some kb =>
      simp only [hkb]
      by_cases hgt : order + 1 > 7
      · have hlen : rest.length = 0 := by
          simp only [List.length_cons] at h
          omega
        have hrest : rest = [] := List.eq_nil_of_length_eq_zero hlen
        subst hrest
        rw [if_pos hgt]
        rfl
      · rw [if_neg hgt]
        refine ih _ _ ?_
        simp only [List.length_cons] at h
        omega
    | none =>
      simp only [hkb]
      refine ih _ _ ?_
      simp only [List.length_cons] at h
      omega

lemma genQuestionsLoop_orders (l : List Attribution) :
    ∀ (qs : List BQuestion) (n : ℕ),
      qs.map (fun q => q.order) = List.range' 1 n →
      ∃ k, k ≤ l.length ∧ (genQuestionsLoop l qs (n + 1)).map (fun q => q.order)
        = List.range' 1 (n + k) := by
  induction l with
  | nil =>
    intro qs n h
    exact ⟨0, Nat.zero_le _, by simpa using h⟩
  | cons f rest ih =>
    intro qs n h
    rw [genQuestionsLoop]
    cases hkb : kbLookup f.feature with
    | none =>
      simp only [hkb]
      obtain ⟨k, hk, hmap⟩ := ih qs n h
      exact ⟨k, le_trans hk (by simp only [List.length_cons]; omega), hmap⟩
    | some kb =>
      simp only [hkb]
      set q0 : BQuestion := { order := n + 1, question := kb.question, feature := f.feature, follow_up := kb.follow_up, contribution := some f.contribution } with hq0
      have hq : (qs ++ [q0]).map (fun q => q.order) = List.range' 1 (n + 1) := by
        rw [List.map_append, h, hq0]
        simp [List.range'_concat, Nat.add_comm]
      by_cases hgt : n + 1 + 1 > 7
      · rw [if_pos hgt]
        exact ⟨1, by simp only [List.length_cons]; omega, hq⟩
      · rw [if_neg hgt]
        obtain ⟨k, hk, hmap⟩ := ih _ (n + 1) hq
        refine ⟨k + 1, by simp only [List.length_cons]; omega, ?_⟩
        rw [hmap]
        congr 1
        omega

/-- C10: `generate_questions` returns at most 6 questions (at most one fraud
question plus at most 5 attribution questions), behaves identically to the
variant without the internal `order > 7` cap check (the check can never
trigger), and numbers the returned questions consecutively from 1 in the
order they were added. -/
theorem generate_questions_cap_spec (lf : List Attribution) (ff : FraudFlags) :
    generate_questions lf ff = generate_questions_nocap lf ff ∧
    (generate_questions lf ff).length ≤ 6 ∧
    (generate_questions lf ff).map (fun q => q.order)
      = List.range' 1 (generate_questions lf ff).length := by
  have hlen5 : ((lf.filter (fun f => f.contribution < 0)).take 5).length ≤ 5 :=
    List.length_take_le _ _
  unfold generate_questions generate_questions_nocap
  simp only []
  by_cases hsoft : (ff.severity == "soft") = true
  · rw [if_pos hsoft]
    simp only []
    have hbase : ([fraudVerificationQuestion ff.details]).map (fun q => q.order)
        = List.range' 1 1 := rfl
    obtain ⟨k, hk, hmap⟩ := genQuestionsLoop_orders
      ((lf.filter (fun f => f.contribution < 0)).take 5) _ 1 hbase
    have hlen : (genQuestionsLoop ((lf.filter (fun f => f.contribution < 0)).take 5)
        [fraudVerificationQuestion ff.details] 2).length = 1 + k := by
      have hl := congrArg List.length hmap
      simpa using hl
    refine ⟨genQuestionsLoop_eq_nocap _ _ _ (by omega), by omega, ?_⟩
    rw [hlen, hmap]
  · rw [if_neg hsoft]
    simp only []
    have hbase : (([] : List BQuestion)).map (fun q => q.order) = List.range' 1 0 := rfl
    obtain ⟨k, hk, hmap⟩ := genQuestionsLoop_orders
      ((lf.filter (fun f => f.contribution < 0)).take 5) [] 0 hbase
    have hlen : (genQuestionsLoop ((lf.filter (fun f => f.contribution < 0)).take 5)
        [] 1).length = 0 + k := by
      have hl := congrArg List.length hmap
      simpa using hl
    refine ⟨genQuestionsLoop_eq_nocap _ _ _ (by omega), by omega, ?_⟩
    rw [hlen, hmap]


lemma startsWithChars_append (pat rest : List Char) :
    startsWithChars pat (pat ++ rest) = true := by
  induction pat with
  | nil => rfl
  | cons a as ih => simp [startsWithChars, ih]

lemma containsChars_of_startsWith {pat l : List Char}
    (h : startsWithChars pat l = true) : containsChars pat l = true := by
  cases l with
  | nil =>
    cases pat with
    | nil => rfl
    | cons p ps => simp [startsWithChars] at h
  | cons c rest => simp [containsChars, h]

lemma containsChars_cons_of (pat : List Char) (c : Char) (rest : List Char)
    (h : containsChars pat rest = true) : containsChars pat (c :: rest) = true := by
  simp [containsChars, h]

lemma containsChars_of_sub {pat l : List Char} (h : pat <:+: l) :
    containsChars pat l = true := by
  obtain ⟨s, t, rfl⟩ := h
  induction s with
  | nil =>
    apply containsChars_of_startsWith
    rw [List.nil_append]
    exact startsWithChars_append pat t
  | cons c s ih =>
    simp only [List.cons_append]
    exact containsChars_cons_of _ _ _ ih

lemma strContains_of_sub {s sub : String} (h : sub.data <:+: s.data) :
    strContains s sub = true :=
  containsChars_of_sub h

lemma joinSep_mem_sub (sep : String) (l : List String) (a : String) (ha : a ∈ l) :
    a.data <:+: (joinSep sep l).data := by
  induction l with
  | nil => cases ha
  | cons x rest ih =>
    cases rest with
    | nil =>
      obtain rfl : a = x := by simpa using ha
      exact List.infix_refl _
    | cons y t =>
      rw [joinSep]
      rcases List.mem_cons.mp ha with rfl | hmem
      · refine List.IsPrefix.isInfix ?_
        simp only [String.data_append]
        rw [List.append_assoc]
        exact List.prefix_append _ _
      · refine (ih hmem).trans (List.IsSuffix.isInfix ?_)
        simp only [String.data_append]
        exact List.suffix_append _ _

/-- C6 counterexample: with a hard fraud flag (severity "hard", blocking
flag `document_mismatch`), the advisory bundle is minimal — empty questions,
documents and actions — but its explanation is the fixed string
"Hard fraud detected - recommend rejection", which does not name the
blocking flag. -/
theorem borderline_hard_explanation_counterexample :
    (analyze_borderline_application (1/2) [] ⟨"hard", "document_mismatch"⟩).interview_questions = [] ∧
    (analyze_borderline_application (1/2) [] ⟨"hard", "document_mismatch"⟩).documents_needed = [] ∧
    (analyze_borderline_application (1/2) [] ⟨"hard", "document_mismatch"⟩).improvement_actions = [] ∧
    (analyze_borderline_application (1/2) [] ⟨"hard", "document_mismatch"⟩).explanation
      = "Hard fraud detected - recommend rejection" ∧
    strContains (analyze_borderline_application (1/2) [] ⟨"hard", "document_mismatch"⟩).explanation
      "document_mismatch" = false :=
  ⟨rfl, rfl, rfl, rfl, rfl⟩

/-- C6 amended: with hard fraud severity the advisory analysis skips all
generation and returns the minimal bundle — recommendation REJECT, empty
interview_questions, documents_needed, improvement_actions and an empty
PD-improvement estimate — with the fixed explanation "Hard fraud detected -
recommend rejection"; the explanation that names the blocking flag(s) is
produced separately by `build_summary` for BLOCKED_FRAUD decisions, whose
summary string contains every matched flag's name. -/
theorem borderline_hard_minimal_bundle (pd : ℚ) (lf : List Attribution)
    (ff : FraudFlags) (hh : ff.severity = "hard") :
    analyze_borderline_application pd lf ff =
      { recommendation := "REJECT"
        explanation := "Hard fraud detected - recommend rejection"
        interview_questions := []
        documents_needed := []
        improvement_actions := []
        pd_improvement_estimate := none } ∧
    ∀ (pdp : ℚ) (fraud : FraudResult) (lf2 : List LimeFeat),
      ∀ f ∈ fraud.flags,
        strContains (build_summary "BLOCKED_FRAUD" pdp fraud lf2) f.name = true := by
  constructor
  · unfold analyze_borderline_application check_fraud_severity
    rw [hh]
    rfl
  · intro pdp fraud lf2 f hf
    unfold build_summary
    rw [if_pos (by simp)]
    simp only []
    have hne : fraud.flags.isEmpty = false := by
      cases hfl : fraud.flags with
      | nil => rw [hfl] at hf; cases hf
      | cons x xs => rfl
    simp only [hne, Bool.false_eq_true, if_false]
    refine strContains_of_sub ?_
    have hmem : f.name ∈ fraud.flags.map (fun g => g.name) :=
      List.mem_map.mpr ⟨f, hf, rfl⟩
    refine (joinSep_mem_sub ", " _ _ hmem).trans ?_
    simp only [String.data_append]
    exact ⟨"Blocked due to fraud signal: ".data, ". Manual verification required.".data, by
      rw [List.append_assoc]⟩

/-- Witness for the amended C6 at a concrete hard-severity input. -/
theorem borderline_hard_minimal_bundle_witness :
    analyze_borderline_application 0 [] ⟨"hard", "details"⟩ =
      { recommendation := "REJECT"
        explanation := "Hard fraud detected - recommend rejection"
        interview_questions := []
        documents_needed := []
        improvement_actions := []
        pd_improvement_estimate := none } ∧
    ∀ (pdp : ℚ) (fraud : FraudResult) (lf2 : List LimeFeat),
      ∀ f ∈ fraud.flags,
        strContains (build_summary "BLOCKED_FRAUD" pdp fraud lf2) f.name = true :=
  borderline_hard_minimal_bundle 0 [] ⟨"hard", "details"⟩ rfl


/-- Concrete evaluation of `fraud_check` on the empty mapping: all defaults,
no flags, PASS. -/
lemma fraud_check_empty :
    fraud_check [] = .ok ⟨"PASS", 0, []⟩ := by
  unfold fraud_check rawGetD expensesGtIncomeCond
  norm_num [pyInt, pyFloat, pyTrunc, Except.bind, addFlag, pyRound, rhe, min_def,
    Int.floor_intCast, List.lookup]

/-- C7 counterexample: with an empty attribution list (the explainer-failure
degradation) and an empty raw mapping, `generate_interview_questions` still
returns questions — its closing question (and, for PD > 0.25, the risk
question) is emitted unconditionally — so the downstream generators do not
all produce zero questions. -/
theorem interview_questions_nonzero_on_empty :
    (generate_interview_questions [] [] (1/2)).length ≠ 0 := by
  unfold generate_interview_questions
  norm_num [List.lookup]

/-- C7 amended: if the explainer call fails, the attribution list becomes
empty and the analysis still returns (given the fraud check returned); on an
empty attribution list the borderline advisor's generators produce zero
questions (absent a soft fraud flag), zero documents and zero improvement
actions without error; `generate_interview_questions`, however, does not
produce zero questions — it always emits its unconditional closing question
(and feature-presence/risk questions), independent of the attributions. -/
theorem explainer_failure_degrades (raw : RawMap) (p : ℚ) (msg : String)
    (fr : FraudResult) (hfr : fraud_check raw = .ok fr)
    (ff : FraudFlags) (hnotsoft : ff.severity ≠ "soft") :
    (∃ a, analyze_application_complete raw p (.error msg) = .ok a ∧ a.lime_features = []) ∧
    generate_questions [] ff = [] ∧
    generate_documents [] = [] ∧
    generate_actions [] = [] := by
  refine ⟨?_, ?_, rfl, rfl⟩
  · unfold analyze_application_complete
    rw [hfr]
    simp only [Except.bind]
    exact ⟨_, rfl, rfl⟩
  · unfold generate_questions
    rw [if_neg (by simpa using hnotsoft)]
    rfl

/-- Witness for the amended C7 at concrete inputs: empty raw mapping,
severity "none". -/
theorem explainer_failure_degrades_witness :
    (∃ a, analyze_application_complete [] 0 (.error "explainer down") = .ok a ∧
      a.lime_features = []) ∧
    generate_questions [] ⟨"none", ""⟩ = [] ∧
    generate_documents [] = [] ∧
    generate_actions [] = [] :=
  explainer_failure_degrades [] 0 "explainer down" ⟨"PASS", 0, []⟩ fraud_check_empty
    ⟨"none", ""⟩ (by simp)


lemma rhe_le_add_half (y : ℚ) : (rhe y : ℚ) ≤ y + 1/2 := by
  have hf : (⌊y⌋ : ℚ) ≤ y := Int.floor_le y
  unfold rhe
  simp only []
  split_ifs with h1 h2 h3
  · linarith
  · push_cast
    linarith
  · linarith
  · rw [not_lt] at h1 h2
    push_cast
    linarith

lemma pyRound1_gt_tenth {x : ℚ} (h : (0.1 : ℚ) < pyRound 1 x) : (0.1 : ℚ) < x := by
  unfold pyRound at h
  rw [pow_one] at h
  have h10 : (0 : ℚ) < 10 := by norm_num
  rw [lt_div_iff₀ h10] at h
  have h1 : (1 : ℚ) < (rhe (x * 10) : ℚ) := by
    calc (1 : ℚ) = 0.1 * 10 := by norm_num
    _ < _ := h
  have hr : (1 : ℤ) < rhe (x * 10) := by exact_mod_cast h1
  have hr2 : (2 : ℚ) ≤ (rhe (x * 10) : ℚ) := by exact_mod_cast hr
  have hbound := rhe_le_add_half (x * 10)
  calc (0.1 : ℚ) < 3/20 := by norm_num
  _ ≤ x := by linarith

lemma mem_suggestStep {raw_data : RawQ} {pdFn : RawQ → ℚ} {lf : List LimeFeat}
    {acc : List Suggestion} {t : Tweak} {s : Suggestion}
    (h : s ∈ suggestStep raw_data pdFn lf acc t) :
    s ∈ acc ∨
      (s.feature = t.feature ∧
       s.pd_reduction = (test_feature_improvement raw_data pdFn t).2.2 ∧
       s.impact_score = s.pd_reduction ∧
       (0.1 : ℚ) < s.pd_reduction) := by
  unfold suggestStep at h
  simp only [] at h
  split_ifs at h with hc1 hc2
  · exact Or.inl h
  · rcases List.mem_append.mp h with hin | hone
    · exact Or.inl hin
    · obtain rfl : s = _ := List.mem_singleton.mp hone
      exact Or.inr ⟨rfl, rfl, rfl, hc2⟩
  · exact Or.inl h

lemma mem_foldl_suggestStep (raw_data : RawQ) (pdFn : RawQ → ℚ) (lf : List LimeFeat)
    (l : List Tweak) :
    ∀ (acc : List Suggestion) (s : Suggestion),
      s ∈ l.foldl (suggestStep raw_data pdFn lf) acc →
      s ∈ acc ∨ ∃ t ∈ l,
        s.feature = t.feature ∧
        s.pd_reduction = (test_feature_improvement raw_data pdFn t).2.2 ∧
        s.impact_score = s.pd_reduction ∧
        (0.1 : ℚ) < s.pd_reduction := by
  induction l with
  | nil => exact fun acc s h => Or.inl h
  | cons t rest ih =>
    intro acc s h
    rw [List.foldl_cons] at h
    rcases ih _ s h with hin | ⟨t', ht', hp⟩
    · rcases mem_suggestStep hin with hacc | hnew
      · exact Or.inl hacc
      · exact Or.inr ⟨t, List.mem_cons_self _ _, hnew⟩
    · exact Or.inr ⟨t', List.mem_cons_of_mem _ ht', hp⟩

lemma test_redVal_gt {raw_data : RawQ} {pdFn : RawQ → ℚ} {t : Tweak}
    (h : (0.1 : ℚ) < (test_feature_improvement raw_data pdFn t).2.2) :
    (0.1 : ℚ) < improvementPercent raw_data pdFn t := by
  unfold improvementPercent
  unfold test_feature_improvement at h ⊢
  simp only [] at h ⊢
  by_cases hpd : 0 < pdFn raw_data
  · rw [if_pos hpd] at h ⊢
    split_ifs at h with himp
    · exact pyRound1_gt_tenth h
    · norm_num at h
  · rw [if_neg hpd] at h
    split_ifs at h with himp
    · simp only [pyRound, rhe] at h
      norm_num at h
    · norm_num at h

/-- C5: `generate_ai_suggestions` returns at most 5 suggestions, sorted
(non-strictly) descending by impact score; every emitted suggestion has
pd_reduction > 0.1 (percent), equal to its impact score, and stems from a
catalog feature whose true improvement percentage
(baseline_pd - modified_pd) / baseline_pd * 100 (0 when the baseline PD is
not positive) itself exceeds 0.1 — features at or below the 0.1 threshold
are discarded. -/
theorem generate_ai_suggestions_spec (raw_data : RawQ) (pdFn : RawQ → ℚ)
    (current_pd : ℚ) (lf : List LimeFeat) :
    (generate_ai_suggestions raw_data pdFn current_pd lf).length ≤ 5 ∧
    List.Sorted suggGE (generate_ai_suggestions raw_data pdFn current_pd lf) ∧
    ∀ s ∈ generate_ai_suggestions raw_data pdFn current_pd lf,
      (0.1 : ℚ) < s.pd_reduction ∧ s.impact_score = s.pd_reduction ∧
      ∃ t ∈ FEATURE_TWEAKS, t.feature = s.feature ∧
        (0.1 : ℚ) < improvementPercent raw_data pdFn t := by
  unfold generate_ai_suggestions
  simp only []
  refine ⟨List.length_take_le _ _, ?_, ?_⟩
  · exact List.Pairwise.sublist (List.take_sublist _ _)
      (List.sorted_insertionSort suggGE _)
  · intro s hs
    have hs1 : s ∈ List.insertionSort suggGE
        (FEATURE_TWEAKS.foldl (suggestStep raw_data pdFn lf) []) :=
      List.take_subset _ _ hs
    have hs2 : s ∈ FEATURE_TWEAKS.foldl (suggestStep raw_data pdFn lf) [] :=
      (List.perm_insertionSort suggGE _).subset hs1
    rcases mem_foldl_suggestStep raw_data pdFn lf FEATURE_TWEAKS [] s hs2 with h0 | h1
    · cases h0
    · obtain ⟨t, ht, hfeat, hred, himp, hgt⟩ := h1
      exact ⟨hgt, himp, t, ht, hfeat.symm, test_redVal_gt (hred ▸ hgt)⟩

end Credify
